import Mathlib

/-!
Verification of the iSYS4001 radar driver (KB-Sensor-Mart/iSYS4001).

Shallow embedding of the frame transaction engine of `src/iSYS4001.cpp`:
the checksum routine `calculateFCS`, the two-phase target-list collection
`receiveTargetListResponse`, the target-list decoder `decodeTargetFrame`,
and two representative parameter operations
(`iSYS_getOutputVelocityMin`, `iSYS_getOutputDirection`).

Bytes are modelled as natural numbers (callers pass values < 256); machine
arithmetic that matters (8-bit checksum accumulation, signed 16/32-bit
reassembly) is made explicit with `% 256` and two's-complement conversion.
The C `float` target fields are modelled as exact rationals with the
source's scale factors. The serial transport is modelled by the list of
bytes that arrive before the caller's deadline; a zero timeout makes the
polling loops read nothing.
-/

namespace ISYS4001

/-- Error codes from `iSYS4001.h` (`iSYSResult_t`), restricted to the
constructors the modelled code paths can return. `ERR_FRAME_INCOMPLETE`
is returned by `receiveTargetListResponse` in `iSYS4001.cpp`. -/
inductive iSYSResult where
  | ERR_OK
  | ERR_TIMEOUT
  | ERR_COMMAND_NO_DATA_RECEIVED
  | ERR_FRAME_INCOMPLETE
  | ERR_COMMAND_RX_FRAME_DAMAGED
  | ERR_COMMAND_RX_FRAME_LENGTH
  | ERR_COMMAND_MAX_DATA_OVERFLOW
  | ERR_COMMAND_NO_VALID_FRAME_FOUND
  | ERR_COMMAND_FAILURE
  | ERR_INVALID_CHECKSUM
  | ERR_NULL_POINTER
  | ERR_OUTPUT_OUT_OF_RANGE
  | ERR_PARAMETER_OUT_OF_RANGE
  deriving DecidableEq, Repr

/-- `iSYSTargetListError_t` from `iSYS4001.h`. -/
inductive iSYSTargetListError where
  | TARGET_LIST_OK
  | TARGET_LIST_FULL
  | TARGET_LIST_REFRESHED
  | TARGET_LIST_ALREADY_REQUESTED
  | TARGET_LIST_ACQUISITION_NOT_STARTED
  deriving DecidableEq, Repr

/-- `MAX_TARGETS` (0x23) from `iSYS4001.h`. -/
def MAX_TARGETS : ℕ := 0x23

/-- One detected target (`iSYSTarget_t`); the C `float` fields are
modelled as exact rationals. -/
structure iSYSTarget where
  signal : ℚ
  velocity : ℚ
  range : ℚ
  angle : ℚ
  deriving DecidableEq, Repr

/-- `iSYSTargetList_t` from `iSYS4001.h`. -/
structure iSYSTargetList where
  error : iSYSTargetListError
  outputNumber : ℕ
  nrOfTargets : ℕ
  clippingFlag : ℕ
  targets : List iSYSTarget
  deriving DecidableEq, Repr

def zeroTarget : iSYSTarget := ⟨0, 0, 0, 0⟩

/-- The state of an `iSYSTargetList_t` after the
`memset(pTargetList, 0, sizeof(iSYSTargetList_t))` performed at the start
of `getTargetList16` / `getTargetList32` (error code 0 is
`TARGET_LIST_OK`). -/
def zeroTargetList : iSYSTargetList :=
  { error := .TARGET_LIST_OK
    outputNumber := 0
    nrOfTargets := 0
    clippingFlag := 0
    targets := List.replicate MAX_TARGETS zeroTarget }

/-!
## ChecksumEngine: `calculateFCS` (iSYS4001.cpp lines 2040-2048)

```c
uint8_t iSYS4001::calculateFCS(const uint8_t *data, uint8_t startIndex, uint8_t endIndex)
{
    uint8_t fcs = 0;
    for (uint8_t i = startIndex; i <= endIndex; i++)
        fcs = (uint8_t)(fcs + data[i]);
    return fcs;
}
```

The loop counter `i` is a `uint8_t`. When `endIndex = 255` the guard
`i <= endIndex` is always true (every `uint8_t` value is ≤ 255), so the
loop never terminates; this divergence is modelled by returning `none`.
Otherwise the result is the fold of `(fcs + data[i]) mod 256` over
`i = startIndex .. endIndex` (an empty range when `startIndex > endIndex`).
-/

def calculateFCS (data : List ℕ) (startIndex endIndex : ℕ) : Option ℕ :=
  if endIndex = 255 then none
  else
    some (((List.range (endIndex + 1 - startIndex)).map
      (fun k => data.getD (startIndex + k) 0)).foldl (fun fcs b => (fcs + b) % 256) 0)

/-!
## Helper lemmas
-/

/-!
## Two's-complement reassembly and big-endian reads

`decodeTargetFrame` assembles `int16_t` values via
`tmp = ((hi & 0xff) << 8); tmp |= (lo & 0xff);` and `int` (32-bit) values
from four bytes analogously; the conversion of the assembled unsigned
pattern into the signed C type is two's complement.
-/

/-- Two's-complement value of the low `w` bits of `n`. -/
def toSigned (w n : ℕ) : ℤ :=
  if n % 2 ^ w < 2 ^ (w - 1) then (n % 2 ^ w : ℤ) else (n % 2 ^ w : ℤ) - 2 ^ w

def toInt16 (n : ℕ) : ℤ := toSigned 16 n

def toInt32 (n : ℕ) : ℤ := toSigned 32 n

/-- Big-endian 16-bit read at index `i` (out-of-range bytes read as 0,
standing for the indeterminate memory an out-of-bounds C read returns). -/
def be16 (frame : List ℕ) (i : ℕ) : ℕ :=
  frame.getD i 0 * 2 ^ 8 + frame.getD (i + 1) 0

/-- Big-endian 32-bit read at index `i`. -/
def be32 (frame : List ℕ) (i : ℕ) : ℕ :=
  frame.getD i 0 * 2 ^ 24 + frame.getD (i + 1) 0 * 2 ^ 16 +
    frame.getD (i + 2) 0 * 2 ^ 8 + frame.getD (i + 3) 0

/-!
## TargetListDecoder: `decodeTargetFrame` (iSYS4001.cpp lines 285-388)

Structure of the source:
- the function-code offset is 6 when `frame_array[0] == 0x68`, else 3;
- `output_number = frame_array[offset+1]`, `nrOfTargets = frame_array[offset+2]`,
  payload starts at `offset+3`;
- if `frame_array[nrOfElements-1] != 0x16` return `ERR_COMMAND_NO_VALID_FRAME_FOUND`;
- if `nrOfTargets > MAX_TARGETS && nrOfTargets != 0xff` return `ERR_COMMAND_FAILURE`;
- if `nrOfTargets != 0xff`: zero all `MAX_TARGETS` slots, store count /
  output number / `clippingFlag = 0`, then per target consume 14 bytes
  (32-bit mode: signed16 × 0.01, signed32 × 0.001, signed32 × 1e-6,
  signed32 × 0.01) or 7 bytes (16-bit mode: unsigned8, signed16 × 0.01 for
  velocity, range and angle);
- else (`0xff`, clipping) set only `clippingFlag = 1`;
- finally status `TARGET_LIST_FULL` iff `nrOfTargets == MAX_TARGETS`.
-/

/-- Function-code offset selection of `decodeTargetFrame`
(iSYS4001.cpp lines 294-301): 6 for first byte 0x68, otherwise 3. -/
def fcOffset (frame : List ℕ) : ℕ :=
  if frame.getD 0 0 = 0x68 then 6 else 3

/-- One 32-bit-mode target decoded from the 14 payload bytes at `base`. -/
def decodeTarget32 (frame : List ℕ) (base : ℕ) : iSYSTarget :=
  { signal := (toInt16 (be16 frame base) : ℚ) * (1 / 100)
    velocity := (toInt32 (be32 frame (base + 2)) : ℚ) * (1 / 1000)
    range := (toInt32 (be32 frame (base + 6)) : ℚ) * (1 / 1000000)
    angle := (toInt32 (be32 frame (base + 10)) : ℚ) * (1 / 100) }

/-- One 16-bit-mode target decoded from the 7 payload bytes at `base`. -/
def decodeTarget16 (frame : List ℕ) (base : ℕ) : iSYSTarget :=
  { signal := (frame.getD base 0 : ℚ)
    velocity := (toInt16 (be16 frame (base + 1)) : ℚ) * (1 / 100)
    range := (toInt16 (be16 frame (base + 3)) : ℚ) * (1 / 100)
    angle := (toInt16 (be16 frame (base + 5)) : ℚ) * (1 / 100) }

/-- `decodeTargetFrame`: returns the result code and the final state of
`*targetList` (passed in as `targetList`, returned unchanged on the error
paths, which occur before any store into the structure). -/
def decodeTargetFrame (frame : List ℕ) (nrOfElements bitrate : ℕ)
    (targetList : iSYSTargetList) : iSYSResult × iSYSTargetList :=
  let fc := fcOffset frame
  let output_number := frame.getD (fc + 1) 0
  let nrOfTargets := frame.getD (fc + 2) 0
  if frame.getD (nrOfElements - 1) 0 ≠ 0x16 then
    (.ERR_COMMAND_NO_VALID_FRAME_FOUND, targetList)
  else if nrOfTargets > MAX_TARGETS ∧ nrOfTargets ≠ 0xff then
    (.ERR_COMMAND_FAILURE, targetList)
  else if nrOfTargets ≠ 0xff then
    let targets := (List.range MAX_TARGETS).map (fun i =>
      if i < nrOfTargets then
        if bitrate = 32 then decodeTarget32 frame (fc + 3 + 14 * i)
        else if bitrate = 16 then decodeTarget16 frame (fc + 3 + 7 * i)
        else zeroTarget
      else zeroTarget)
    (.ERR_OK,
      { error := if nrOfTargets = MAX_TARGETS then .TARGET_LIST_FULL else .TARGET_LIST_OK
        outputNumber := output_number
        nrOfTargets := nrOfTargets
        clippingFlag := 0
        targets := targets })
  else
    (.ERR_OK,
      { targetList with
        clippingFlag := 1
        error := if nrOfTargets = MAX_TARGETS then .TARGET_LIST_FULL else .TARGET_LIST_OK })

/-- The frame indices `decodeTargetFrame` dereferences, in source order:
`frame_array[0]`, `frame_array[offset+1]`, `frame_array[offset+2]` and
`frame_array[nrOfElements-1]` are always read; the payload bytes
(14 per target in 32-bit mode, 7 in 16-bit mode, starting at `offset+3`)
are read only when both early-return checks pass and the count is not the
0xFF clipping sentinel. -/
def decodeReadIndices (frame : List ℕ) (nrOfElements bitrate : ℕ) : List ℕ :=
  let fc := fcOffset frame
  let nrOfTargets := frame.getD (fc + 2) 0
  let base := [0, fc + 1, fc + 2, nrOfElements - 1]
  if frame.getD (nrOfElements - 1) 0 ≠ 0x16 then base
  else if nrOfTargets > MAX_TARGETS ∧ nrOfTargets ≠ 0xff then base
  else if nrOfTargets ≠ 0xff then
    let bytesPerTgt := if bitrate = 32 then 14 else if bitrate = 16 then 7 else 0
    base ++ (List.range (bytesPerTgt * nrOfTargets)).map (fun k => fc + 3 + k)
  else base

/-!
## ResponseCollector: `receiveTargetListResponse` (iSYS4001.cpp lines 228-281)

```c
const uint8_t headerLen = (bitrate == 32) ? 6 : 9;
const uint8_t countIndex = (bitrate == 32) ? 5 : 8;
const uint8_t bytesPerTgt = (bitrate == 32) ? 14 : 7;
// phase 1: poll until headerLen bytes or deadline
if (buffer.size() < headerLen) return ERR_COMMAND_NO_DATA_RECEIVED;
uint8_t nrOfTargets = buffer[countIndex];
if (nrOfTargets > MAX_TARGETS && nrOfTargets != 0xFF) return ERR_COMMAND_MAX_DATA_OVERFLOW;
const uint16_t expectedLength = headerLen + (bytesPerTgt * nrOfTargets) + 2;
// phase 2: poll until expectedLength bytes or deadline
if (buffer.size() != expectedLength) return ERR_FRAME_INCOMPLETE;
if (buffer.back() != 0x16) return ERR_COMMAND_RX_FRAME_DAMAGED;
return decodeTargetFrame(buffer.data(), buffer.size(), bitrate, pTargetList);
```

The transport is modelled by `arrived`, the list of bytes that become
available before the deadline; each polling phase collects a prefix of it.
`bytesPerTgt * nrOfTargets` does not overflow: both operands are promoted
to `int` in C (at most 14 × 255 = 3570) and `expectedLength` is a
`uint16_t`, so the `ℕ` model is exact.
-/

def headerLen (bitrate : ℕ) : ℕ := if bitrate = 32 then 6 else 9

def countIndex (bitrate : ℕ) : ℕ := if bitrate = 32 then 5 else 8

def bytesPerTgt (bitrate : ℕ) : ℕ := if bitrate = 32 then 14 else 7

/-- `expectedLength = headerLen + (bytesPerTgt * nrOfTargets) + 2`
(iSYS4001.cpp line 257), for every revealed count including 0xFF. -/
def expectedFrameLength (bitrate nrOfTargets : ℕ) : ℕ :=
  headerLen bitrate + bytesPerTgt bitrate * nrOfTargets + 2

/-- The collection-and-validation part of `receiveTargetListResponse`:
everything before the final `decodeTargetFrame` call. Returns the
completed buffer on success. -/
def collectTargetFrame (bitrate : ℕ) (arrived : List ℕ) :
    Except iSYSResult (List ℕ) :=
  let hdr := arrived.take (headerLen bitrate)
  if hdr.length < headerLen bitrate then .error .ERR_COMMAND_NO_DATA_RECEIVED
  else
    let nrOfTargets := hdr.getD (countIndex bitrate) 0
    if nrOfTargets > MAX_TARGETS ∧ nrOfTargets ≠ 0xFF then
      .error .ERR_COMMAND_MAX_DATA_OVERFLOW
    else
      let buffer := arrived.take (expectedFrameLength bitrate nrOfTargets)
      if buffer.length ≠ expectedFrameLength bitrate nrOfTargets then
        .error .ERR_FRAME_INCOMPLETE
      else if buffer.getLast? ≠ some 0x16 then
        .error .ERR_COMMAND_RX_FRAME_DAMAGED
      else .ok buffer

/-- `receiveTargetListResponse` (collection, validation, then
`decodeTargetFrame` on the completed buffer). -/
def receiveTargetListResponse (bitrate : ℕ) (arrived : List ℕ)
    (pTargetList : iSYSTargetList) : iSYSResult × iSYSTargetList :=
  match collectTargetFrame bitrate arrived with
  | .error e => (e, pTargetList)
  | .ok buffer => decodeTargetFrame buffer buffer.length bitrate pTargetList

/-- `getTargetList32` (iSYS4001.cpp lines 186-196): zero-fill the caller's
structure, send the request, then receive and decode. -/
def getTargetList32 (arrived : List ℕ) : iSYSResult × iSYSTargetList :=
  receiveTargetListResponse 32 arrived zeroTargetList

/-- `getTargetList16` (iSYS4001.cpp lines 173-183). -/
def getTargetList16 (arrived : List ℕ) : iSYSResult × iSYSTargetList :=
  receiveTargetListResponse 16 arrived zeroTargetList

/-!
## Fixed-length response collection

The parameter setters/getters collect into a fixed array with
```c
while ((millis() - startTime) < timeout && rIdx < limit)
    if (_serial.available()) {
        response[rIdx++] = _serial.read();
        if (response[rIdx - 1] == 0x16) break;
    }
```
modelled as: take bytes from the arriving stream until `limit` bytes are
collected or a byte equal to 0x16 has just been appended (the 0x16 byte
itself is kept), or the stream (bytes arriving before the deadline) ends.
-/

def collectResp : ℕ → List ℕ → List ℕ
  | 0, _ => []
  | _ + 1, [] => []
  | n + 1, b :: rest => b :: (if b = 0x16 then [] else collectResp n rest)

/-!
## `iSYS_getOutputVelocityMin` (iSYS4001.cpp lines 1033-1103)

The function checks only the output pointer for NULL (modelled away: the
caller's float is passed by value and returned), builds and writes the
11-byte read-parameter command `68 05 05 68 dest 01 D4 output 0C fcs 16`
— with **no** `timeout == 0` guard — then polls for an 11-byte response.
A zero timeout makes the polling loop body unreachable, so nothing is
read. Result: the written bytes, the result code, and the caller's
velocity value (in/out).
-/

def getVelocityMinCommand (outputnumber destAddress : ℕ) : List ℕ :=
  let body := [0x68, 0x05, 0x05, 0x68, destAddress, 0x01, 0xD4, outputnumber, 0x0C]
  body ++ [(calculateFCS body 4 8).getD 0, 0x16]

def iSYS_getOutputVelocityMin (outputnumber destAddress timeout : ℕ)
    (arrived : List ℕ) (velocity : ℚ) : List ℕ × iSYSResult × ℚ :=
  let command := getVelocityMinCommand outputnumber destAddress
  -- the polling loop reads nothing when timeout = 0
  let response := collectResp 11 (if timeout = 0 then [] else arrived)
  if response.length = 0 then
    (command, .ERR_COMMAND_NO_DATA_RECEIVED, velocity)
  else if response.length < 11 then
    (command, .ERR_COMMAND_RX_FRAME_LENGTH, velocity)
  else if response.getD 0 0 ≠ 0x68 ∨ response.getD 1 0 ≠ 0x05 ∨
      response.getD 2 0 ≠ 0x05 ∨ response.getD 3 0 ≠ 0x68 ∨
      response.getD 4 0 ≠ 0x01 ∨ response.getD 5 0 ≠ destAddress ∨
      response.getD 6 0 ≠ 0xD4 ∨ response.getD 10 0 ≠ 0x16 then
    (command, .ERR_COMMAND_RX_FRAME_DAMAGED, velocity)
  else if response.getD 9 0 ≠ (calculateFCS response 4 8).getD 0 then
    (command, .ERR_INVALID_CHECKSUM, velocity)
  else
    let rawvelocity : ℕ := response.getD 7 0 * 2 ^ 8 + response.getD 8 0
    (command, .ERR_OK, ((rawvelocity : ℚ) / 10) * (18 / 5))

/-!
## `iSYS_getOutputDirection` (iSYS4001.cpp lines 1767-1837)

Builds and writes `68 05 05 68 dest 01 D4 output 0E fcs 16` (no
`timeout == 0` guard either), collects an 11-byte response, checks the
fixed header bytes including `response[7] == 0x00`, then stores
`*direction = response[8]` **before** validating the checksum
(`response[9]` against the sum of bytes 4..8). The caller's direction
variable is modelled in/out, so the returned direction shows exactly what
the C function left in `*direction`.
-/

def getDirectionCommand (outputnumber destAddress : ℕ) : List ℕ :=
  let body := [0x68, 0x05, 0x05, 0x68, destAddress, 0x01, 0xD4, outputnumber, 0x0E]
  body ++ [(calculateFCS body 4 8).getD 0, 0x16]

def iSYS_getOutputDirection (outputnumber destAddress timeout : ℕ)
    (arrived : List ℕ) (direction : ℕ) : List ℕ × iSYSResult × ℕ :=
  let command := getDirectionCommand outputnumber destAddress
  let response := collectResp 11 (if timeout = 0 then [] else arrived)
  if response.length = 0 then
    (command, .ERR_COMMAND_NO_DATA_RECEIVED, direction)
  else if response.length < 11 then
    (command, .ERR_COMMAND_RX_FRAME_LENGTH, direction)
  else if response.getD 0 0 ≠ 0x68 ∨ response.getD 1 0 ≠ 0x05 ∨
      response.getD 2 0 ≠ 0x05 ∨ response.getD 3 0 ≠ 0x68 ∨
      response.getD 4 0 ≠ 0x01 ∨ response.getD 5 0 ≠ destAddress ∨
      response.getD 6 0 ≠ 0xD4 ∨ response.getD 7 0 ≠ 0x00 ∨
      response.getD 10 0 ≠ 0x16 then
    (command, .ERR_COMMAND_RX_FRAME_DAMAGED, direction)
  else
    -- *direction = (iSYSDirection_type_t)response[8];  (line 1825)
    let directionOut := response.getD 8 0
    if response.getD 9 0 ≠ (calculateFCS response 4 8).getD 0 then
      (command, .ERR_INVALID_CHECKSUM, directionOut)
    else
      (command, .ERR_OK, directionOut)

/-!
## Helper lemmas
-/

theorem foldl_add_mod (l : List ℕ) (acc : ℕ) (h : acc < 256) :
    l.foldl (fun fcs b => (fcs + b) % 256) acc = (acc + l.sum) % 256 := by
  induction l generalizing acc with
  | nil => simpa using (Nat.mod_eq_of_lt h).symm
  | cons x xs ih =>
      rw [List.foldl_cons, ih ((acc + x) % 256) (Nat.mod_lt _ (by norm_num)),
        List.sum_cons]
      omega

theorem getD_map_range {α : Type} (f : ℕ → α) (m i : ℕ) (d : α) :
    ((List.range m).map f).getD i d = if i < m then f i else d := by
  rcases Nat.lt_or_ge i m with h | h
  · rw [List.getD_eq_getElem?_getD, List.getElem?_map, List.getElem?_range h]
    simp [h]
  · rw [List.getD_eq_getElem?_getD, List.getElem?_map]
    rw [List.getElem?_eq_none (by simpa using h)]
    simp [Nat.not_lt.mpr h]

theorem range_map_getD_eq_take_drop (l : List ℕ) (a n : ℕ) (h : a + n ≤ l.length) :
    (List.range n).map (fun k => l.getD (a + k) 0) = (l.drop a).take n := by
  induction n with
  | zero => simp
  | succ n ih =>
      have ih2 := ih (by omega)
      have hlt2 : a + n < l.length := by omega
      rw [List.range_succ, List.map_append, ih2, List.take_succ]
      simp only [List.map_cons, List.map_nil]
      congr 1
      rw [List.getElem?_drop, List.getElem?_eq_getElem hlt2]
      simp [List.getD_eq_getElem?_getD, List.getElem?_eq_getElem hlt2]

/-- A synthetic validated 32-bit-mode response frame with one target whose
raw payload integers are signal 500, velocity 1000, range 5000000,
angle 100 (spec section 8 round-trip example). -/
def exampleFrame32 : List ℕ :=
  [0x68, 0x11, 0x11, 0x68, 0x80, 0x01, 0xDA, 0x01, 0x01,
   0x01, 0xF4, 0x00, 0x00, 0x03, 0xE8, 0x00, 0x4C, 0x4B, 0x40,
   0x00, 0x00, 0x00, 0x64, 0x16]

/-!
## Claims
-/

/-- C1: the claim states that for the clipping sentinel count 0xFF the
expected total frame length is computed as header_len + 2 (zero target
bytes). The code at iSYS4001.cpp line 257 instead computes
`headerLen + bytesPerTgt * 0xFF + 2` = 3578 in 32-bit mode, so an actual
zero-target clipping frame of 8 bytes is rejected as
`ERR_FRAME_INCOMPLETE` and the 0xFF exemption at line 252 together with
the decoder's clipping branch become unreachable through this path. For
counts 0..capacity the claimed formula does hold (last conjunct). -/
theorem clipping_sentinel_length_bug :
    expectedFrameLength 32 0xFF = 3578 ∧
    headerLen 32 + 2 = 8 ∧
    collectTargetFrame 32 [0x68, 0x05, 0x05, 0x68, 0x01, 0xFF, 0x00, 0x16] =
      .error .ERR_FRAME_INCOMPLETE ∧
    (∀ n : ℕ, expectedFrameLength 32 n = headerLen 32 + 14 * n + 2) :=
  ⟨rfl, rfl, rfl, fun _ => rfl⟩

/-- C2: the claim states the decoder never reads an index ≥ nrOfElements on
buffers produced by two-phase collection that satisfy steps 1-2. In 32-bit
mode the collector reads the target count at buffer index 5 while the
decoder reads it at offset+2 = 8; the 8-byte buffer below passes two-phase
collection (count byte 0 at index 5, terminator last), yet the decoder
dereferences `frame_array[8]` with nrOfElements = 8 — out of bounds. -/
theorem decode_reads_past_buffer_end :
    collectTargetFrame 32 [0x68, 0x00, 0x00, 0x68, 0x80, 0x00, 0x01, 0x16] =
      .ok [0x68, 0x00, 0x00, 0x68, 0x80, 0x00, 0x01, 0x16] ∧
    ([0x68, 0x00, 0x00, 0x68, 0x80, 0x00, 0x01, 0x16] : List ℕ).length = 8 ∧
    8 ∈ decodeReadIndices [0x68, 0x00, 0x00, 0x68, 0x80, 0x00, 0x01, 0x16] 8 32 :=
  ⟨rfl, rfl, by decide⟩

/-- C3: the claim states every public setter/getter rejects timeout = 0
with the zero-timeout parameter error before touching the transport.
`iSYS_getOutputVelocityMin` (iSYS4001.cpp lines 1033-1056) has no
`timeout == 0` guard: it always writes the 11-byte command frame, and with
timeout = 0 the receive loop reads nothing, so the call returns
`ERR_COMMAND_NO_DATA_RECEIVED` (never `ERR_TIMEOUT`) after 11 transport
bytes were written — contradicting the function's own documentation block
(line 822: "ERR_TIMEOUT if timeoutMs == 0"). -/
theorem getOutputVelocityMin_zero_timeout (outputnumber destAddress : ℕ)
    (arrived : List ℕ) (velocity : ℚ) :
    (iSYS_getOutputVelocityMin outputnumber destAddress 0 arrived velocity).1.length = 11 ∧
    (iSYS_getOutputVelocityMin outputnumber destAddress 0 arrived velocity).2.1 =
      .ERR_COMMAND_NO_DATA_RECEIVED ∧
    (iSYS_getOutputVelocityMin outputnumber destAddress 0 arrived velocity).2.1 ≠
      .ERR_TIMEOUT := by
  simp [iSYS_getOutputVelocityMin, getVelocityMinCommand, collectResp]

/-- C4: for every validated buffer whose target-count byte (at the
function-code offset + 2) is the 0xFF clipping sentinel, decoding into the
zero-filled structure produced at the start of a getTargetList request
yields clippingFlag = 1, nrOfTargets = 0 (not 255), list status OK, and no
payload bytes are read as targets, for every resolution mode. -/
theorem decode_clipping_sentinel (frame : List ℕ) (nrOfElements bitrate : ℕ)
    (hterm : frame.getD (nrOfElements - 1) 0 = 0x16)
    (hcount : frame.getD (fcOffset frame + 2) 0 = 0xFF) :
    decodeTargetFrame frame nrOfElements bitrate zeroTargetList =
      (.ERR_OK, { zeroTargetList with clippingFlag := 1 }) ∧
    decodeReadIndices frame nrOfElements bitrate =
      [0, fcOffset frame + 1, fcOffset frame + 2, nrOfElements - 1] := by
  simp only [List.getD_eq_getElem?_getD] at hterm hcount
  constructor
  · simp [decodeTargetFrame, List.getD_eq_getElem?_getD, hterm, hcount, MAX_TARGETS,
      zeroTargetList]
  · simp [decodeReadIndices, List.getD_eq_getElem?_getD, hterm, hcount, MAX_TARGETS]

/-- C4 witness: an 11-byte 32-bit-mode frame with count byte 0xFF. -/
theorem decode_clipping_sentinel_witness :
    decodeTargetFrame [0x68, 0x05, 0x05, 0x68, 0x80, 0x01, 0xDA, 0x01, 0xFF, 0x00, 0x16]
        11 32 zeroTargetList =
      (.ERR_OK, { zeroTargetList with clippingFlag := 1 }) ∧
    decodeReadIndices [0x68, 0x05, 0x05, 0x68, 0x80, 0x01, 0xDA, 0x01, 0xFF, 0x00, 0x16]
        11 32 =
      [0, fcOffset [0x68, 0x05, 0x05, 0x68, 0x80, 0x01, 0xDA, 0x01, 0xFF, 0x00, 0x16] + 1,
       fcOffset [0x68, 0x05, 0x05, 0x68, 0x80, 0x01, 0xDA, 0x01, 0xFF, 0x00, 0x16] + 2,
       11 - 1] :=
  decode_clipping_sentinel
    [0x68, 0x05, 0x05, 0x68, 0x80, 0x01, 0xDA, 0x01, 0xFF, 0x00, 0x16] 11 32
    (by decide) (by decide)

/-- C5: for every validated buffer, a target-count byte equal to the
capacity 0x23 decodes with status FULL, a count below the capacity decodes
with status OK, and a count above the capacity that is not 0xFF fails with
the invalid-target-count error `ERR_COMMAND_FAILURE` with the caller's
structure untouched. -/
theorem decode_count_boundary (frame : List ℕ) (nrOfElements bitrate : ℕ)
    (tl : iSYSTargetList)
    (hterm : frame.getD (nrOfElements - 1) 0 = 0x16) :
    (frame.getD (fcOffset frame + 2) 0 = MAX_TARGETS →
      (decodeTargetFrame frame nrOfElements bitrate tl).1 = .ERR_OK ∧
      (decodeTargetFrame frame nrOfElements bitrate tl).2.error = .TARGET_LIST_FULL) ∧
    (frame.getD (fcOffset frame + 2) 0 < MAX_TARGETS →
      (decodeTargetFrame frame nrOfElements bitrate tl).1 = .ERR_OK ∧
      (decodeTargetFrame frame nrOfElements bitrate tl).2.error = .TARGET_LIST_OK) ∧
    (frame.getD (fcOffset frame + 2) 0 > MAX_TARGETS ∧
        frame.getD (fcOffset frame + 2) 0 ≠ 0xFF →
      decodeTargetFrame frame nrOfElements bitrate tl = (.ERR_COMMAND_FAILURE, tl)) := by
  simp only [List.getD_eq_getElem?_getD] at hterm
  refine ⟨fun hc => ?_, fun hc => ?_, fun hc => ?_⟩
  · simp only [List.getD_eq_getElem?_getD] at hc
    simp [decodeTargetFrame, List.getD_eq_getElem?_getD, hterm, hc, MAX_TARGETS]
  · simp only [List.getD_eq_getElem?_getD] at hc
    have h1 : ¬(35 < frame[fcOffset frame + 2]?.getD 0) := by
      simp [MAX_TARGETS] at hc; omega
    have h2 : frame[fcOffset frame + 2]?.getD 0 ≠ 255 := by
      simp [MAX_TARGETS] at hc; omega
    have h3 : frame[fcOffset frame + 2]?.getD 0 ≠ 35 := by
      simp [MAX_TARGETS] at hc; omega
    simp [decodeTargetFrame, List.getD_eq_getElem?_getD, hterm, h1, h2, h3, MAX_TARGETS]
  · simp only [List.getD_eq_getElem?_getD, MAX_TARGETS] at hc
    simp [decodeTargetFrame, List.getD_eq_getElem?_getD, hterm, hc, MAX_TARGETS]

/-- C5 witness: count byte 0x24 = capacity + 1 fails with the caller's
structure unchanged. -/
theorem decode_count_boundary_witness :
    decodeTargetFrame [0x68, 0x05, 0x05, 0x68, 0x80, 0x01, 0xDA, 0x01, 0x24, 0x00, 0x16]
        11 32 zeroTargetList = (.ERR_COMMAND_FAILURE, zeroTargetList) :=
  (decode_count_boundary
    [0x68, 0x05, 0x05, 0x68, 0x80, 0x01, 0xDA, 0x01, 0x24, 0x00, 0x16] 11 32
    zeroTargetList (by decide)).2.2 ⟨by decide, by decide⟩

/-- C6: in 32-bit resolution mode the decoder consumes exactly 14 payload
bytes per target, starting at offset + 3 + 14 i for target i, and computes
signal from a big-endian signed 16-bit value × 0.01, velocity from a
big-endian signed 32-bit value × 0.001, range × 1e-6 and angle × 0.01. -/
theorem decode32_target_layout (frame : List ℕ) (nrOfElements : ℕ)
    (tl : iSYSTargetList) (i : ℕ)
    (hterm : frame.getD (nrOfElements - 1) 0 = 0x16)
    (hcap : frame.getD (fcOffset frame + 2) 0 ≤ MAX_TARGETS)
    (hi : i < frame.getD (fcOffset frame + 2) 0) :
    (decodeTargetFrame frame nrOfElements 32 tl).2.targets.getD i zeroTarget =
      { signal := (toInt16 (be16 frame (fcOffset frame + 3 + 14 * i)) : ℚ) * (1 / 100)
        velocity := (toInt32 (be32 frame (fcOffset frame + 3 + 14 * i + 2)) : ℚ) * (1 / 1000)
        range := (toInt32 (be32 frame (fcOffset frame + 3 + 14 * i + 6)) : ℚ) * (1 / 1000000)
        angle := (toInt32 (be32 frame (fcOffset frame + 3 + 14 * i + 10)) : ℚ) * (1 / 100) } := by
  simp only [List.getD_eq_getElem?_getD] at hterm hcap hi
  have h2 : frame[fcOffset frame + 2]?.getD 0 ≠ 255 := by
    simp [MAX_TARGETS] at hcap; omega
  have hi35 : i < 35 := by simp [MAX_TARGETS] at hcap; omega
  have h0 : ¬(frame[fcOffset frame + 2]?.getD 0 > 35) := by
    simp [MAX_TARGETS] at hcap; omega
  simp only [decodeTargetFrame, List.getD_eq_getElem?_getD, hterm, h0, h2, MAX_TARGETS,
    if_true, if_false, ite_true, ite_false, ne_eq, not_false_iff, not_true, gt_iff_lt,
    false_and, and_true]
  rw [← List.getD_eq_getElem?_getD, getD_map_range]
  simp [hi35, hi, decodeTarget32]

/-- C6 witness: the synthetic one-target frame decodes raw velocity 1000
to 1.000 m/s and raw range 5000000 to 5.000000 m (and signal 500 to 5 dB,
angle 100 to 1 degree). -/
theorem decode32_target_layout_witness :
    (decodeTargetFrame exampleFrame32 24 32 zeroTargetList).2.targets.getD 0 zeroTarget =
      { signal := 5, velocity := 1, range := 5, angle := 1 } := by
  have h := decode32_target_layout exampleFrame32 24 zeroTargetList 0
    (by decide) (by decide) (by decide)
  rw [h]
  have h1 : toInt16 (be16 exampleFrame32 (fcOffset exampleFrame32 + 3 + 14 * 0)) = 500 := rfl
  have h2 : toInt32 (be32 exampleFrame32 (fcOffset exampleFrame32 + 3 + 14 * 0 + 2)) = 1000 := rfl
  have h3 : toInt32 (be32 exampleFrame32 (fcOffset exampleFrame32 + 3 + 14 * 0 + 6)) = 5000000 := rfl
  have h4 : toInt32 (be32 exampleFrame32 (fcOffset exampleFrame32 + 3 + 14 * 0 + 10)) = 100 := rfl
  rw [h1, h2, h3, h4]
  simp only [iSYSTarget.mk.injEq]
  norm_num

/-- C7 counterexample: the claim quantifies over every index pair
a ≤ b within bounds, but for endIndex = 255 (in bounds for a 256-byte
buffer) the uint8_t loop counter in calculateFCS never exceeds 255, so the
loop never terminates and no value is returned at all. -/
theorem calculateFCS_endIndex_255_diverges :
    (0 ≤ 255 ∧ 255 < (List.replicate 256 (1 : ℕ)).length) ∧
    calculateFCS (List.replicate 256 1) 0 255 = none :=
  ⟨⟨Nat.zero_le _, by rw [List.length_replicate]; norm_num⟩, rfl⟩

/-- C7 (amended): for every byte buffer and every index pair
a ≤ b < 255 within bounds, calculateFCS returns the sum of
buffer[a..=b] modulo 256; determinism is immediate since the function is
pure. The amendment excludes only endIndex = 255, where the uint8_t loop
counter makes the C loop diverge. -/
theorem calculateFCS_sum_mod (data : List ℕ) (a b : ℕ) (hab : a ≤ b)
    (hb : b < data.length) (hlt : b < 255) :
    calculateFCS data a b = some (((data.drop a).take (b + 1 - a)).sum % 256) := by
  unfold calculateFCS
  rw [if_neg (by omega)]
  rw [foldl_add_mod _ _ (by norm_num)]
  rw [range_map_getD_eq_take_drop data a (b + 1 - a) (by omega)]
  simp

/-- C7 witness: the spec section 8 example bytes summed over indices 0..6
give 501 mod 256 = 245. -/
theorem calculateFCS_sum_mod_witness :
    calculateFCS [0x80, 0x01, 0xD5, 0x01, 0x08, 0x00, 0x96] 0 6 = some 245 := by
  have h := calculateFCS_sum_mod [0x80, 0x01, 0xD5, 0x01, 0x08, 0x00, 0x96] 0 6
    (by decide) (by decide) (by decide)
  rw [h]
  rfl

/-- C8 counterexample: the claim states a first byte other than 0x68 and
0xA2 signals the no-valid-frame error; the code instead uses offset 3 for
every first byte other than 0x68 and decodes successfully (first byte
0xA5, output number read from index 4). -/
theorem unknown_marker_not_rejected :
    ((0xA5 : ℕ) ≠ 0x68 ∧ (0xA5 : ℕ) ≠ 0xA2) ∧
    fcOffset [0xA5, 0x00, 0x00, 0x00, 0x07, 0x00, 0x16] = 3 ∧
    decodeTargetFrame [0xA5, 0x00, 0x00, 0x00, 0x07, 0x00, 0x16] 7 16 zeroTargetList =
      (.ERR_OK, { zeroTargetList with outputNumber := 7 }) :=
  ⟨by decide, rfl, by decide⟩

/-- C8 (amended): locating the function-code offset returns 6 when the
first byte is 0x68 and 3 for every other first byte (including 0xA2); no
first-byte value signals the no-valid-frame error — on a buffer whose last
byte is the terminator the decoder never returns
`ERR_COMMAND_NO_VALID_FRAME_FOUND`, whatever the first byte is. -/
theorem fcOffset_amended (frame : List ℕ) (nrOfElements bitrate : ℕ)
    (tl : iSYSTargetList)
    (hterm : frame.getD (nrOfElements - 1) 0 = 0x16) :
    (decodeTargetFrame frame nrOfElements bitrate tl).1 ≠
      .ERR_COMMAND_NO_VALID_FRAME_FOUND ∧
    (frame.getD 0 0 = 0x68 → fcOffset frame = 6) ∧
    (frame.getD 0 0 ≠ 0x68 → fcOffset frame = 3) := by
  simp only [List.getD_eq_getElem?_getD] at hterm
  refine ⟨?_,
    fun h => by
      simp only [List.getD_eq_getElem?_getD] at h
      simp [fcOffset, List.getD_eq_getElem?_getD, h],
    fun h => by
      simp only [List.getD_eq_getElem?_getD] at h
      simp [fcOffset, List.getD_eq_getElem?_getD, h]⟩
  simp only [decodeTargetFrame, List.getD_eq_getElem?_getD, hterm, ne_eq]
  rw [if_neg (by simp)]
  split
  · simp
  · split <;> simp

/-- C8 witness: a 7-byte fixed-framing-style buffer with first byte 0xA2
decodes without the no-valid-frame error and with offset 3. -/
theorem fcOffset_amended_witness :
    (decodeTargetFrame [0xA2, 0x00, 0x00, 0x00, 0x01, 0x00, 0x16] 7 16
        zeroTargetList).1 ≠ .ERR_COMMAND_NO_VALID_FRAME_FOUND ∧
    fcOffset [0xA2, 0x00, 0x00, 0x00, 0x01, 0x00, 0x16] = 3 :=
  ⟨(fcOffset_amended [0xA2, 0x00, 0x00, 0x00, 0x01, 0x00, 0x16] 7 16 zeroTargetList
      (by decide)).1,
   (fcOffset_amended [0xA2, 0x00, 0x00, 0x00, 0x01, 0x00, 0x16] 7 16 zeroTargetList
      (by decide)).2.2 (by decide)⟩

/-- C9 counterexample: one byte (not zero) received before the deadline
still yields the no-data-received error, because phase 1 returns
`ERR_COMMAND_NO_DATA_RECEIVED` whenever fewer than headerLen bytes
arrived; the claim requires the incomplete-frame error whenever at least
one byte was received. -/
theorem partial_header_reports_no_data :
    ([0x68] : List ℕ).length = 1 ∧
    collectTargetFrame 32 [0x68] = .error .ERR_COMMAND_NO_DATA_RECEIVED :=
  ⟨rfl, rfl⟩

/-- C9 (amended): when the deadline elapses, the no-data-received error is
returned if and only if fewer than the header-prefix length bytes arrived
(including partial non-empty receipts), and the incomplete-frame error if
and only if the header prefix arrived, its count passed the overflow
check, and fewer bytes than the computed exact length arrived. -/
theorem collect_error_classification (bitrate : ℕ) (arrived : List ℕ) :
    (collectTargetFrame bitrate arrived = .error .ERR_COMMAND_NO_DATA_RECEIVED ↔
      arrived.length < headerLen bitrate) ∧
    (collectTargetFrame bitrate arrived = .error .ERR_FRAME_INCOMPLETE ↔
      (headerLen bitrate ≤ arrived.length ∧
        ¬((arrived.take (headerLen bitrate)).getD (countIndex bitrate) 0 > MAX_TARGETS ∧
          (arrived.take (headerLen bitrate)).getD (countIndex bitrate) 0 ≠ 0xFF) ∧
        arrived.length <
          expectedFrameLength bitrate
            ((arrived.take (headerLen bitrate)).getD (countIndex bitrate) 0))) := by
  simp only [collectTargetFrame, List.getD_eq_getElem?_getD]
  set c := (arrived.take (headerLen bitrate))[countIndex bitrate]?.getD 0 with hcdef
  rcases Nat.lt_or_ge arrived.length (headerLen bitrate) with h | h
  · have h1 : (arrived.take (headerLen bitrate)).length < headerLen bitrate := by
      rw [List.length_take]; omega
    have h2 : ¬(headerLen bitrate ≤ arrived.length) := by omega
    simp [h1, h, h2]
  · have h1 : ¬((arrived.take (headerLen bitrate)).length < headerLen bitrate) := by
      rw [List.length_take]; omega
    have h2 : ¬(arrived.length < headerLen bitrate) := by omega
    by_cases hover : c > MAX_TARGETS ∧ c ≠ 0xFF
    · simp [h1, hover, h2]
    · rcases Nat.lt_or_ge arrived.length (expectedFrameLength bitrate c) with he | he
      · have h3 : (arrived.take (expectedFrameLength bitrate c)).length ≠
            expectedFrameLength bitrate c := by
          rw [List.length_take]; omega
        simp [h1, hover, h2, h3, h, he]
      · have h3 : ¬((arrived.take (expectedFrameLength bitrate c)).length ≠
            expectedFrameLength bitrate c) := by
          rw [List.length_take]; omega
        have h4 : ¬(arrived.length < expectedFrameLength bitrate c) := by omega
        simp only [h1, hover, h2, h3, h4, if_false, ite_false, if_true, ite_true,
          not_false_iff, and_false, false_and, iff_false, false_iff]
        split <;> simp

/-- C10: for every 11-byte getOutputDirection response that passes the
fixed-header check but carries a wrong checksum byte, the call returns
`ERR_INVALID_CHECKSUM` with the caller's direction variable already
overwritten by the unverified byte at index 8 (the store at iSYS4001.cpp
line 1825 precedes the checksum validation at lines 1827-1834). -/
theorem getOutputDirection_overwrites_on_bad_checksum
    (outputnumber destAddress timeout d8 d9 dirIn : ℕ)
    (ht : timeout ≠ 0) (hdest : destAddress ≠ 0x16)
    (h8 : d8 ≠ 0x16) (h9 : d9 ≠ 0x16)
    (hbad : d9 ≠ (calculateFCS
      [0x68, 0x05, 0x05, 0x68, 0x01, destAddress, 0xD4, 0x00, d8, d9, 0x16] 4 8).getD 0) :
    (iSYS_getOutputDirection outputnumber destAddress timeout
        [0x68, 0x05, 0x05, 0x68, 0x01, destAddress, 0xD4, 0x00, d8, d9, 0x16] dirIn).2 =
      (.ERR_INVALID_CHECKSUM, d8) := by
  have hcoll : collectResp 11
      [0x68, 0x05, 0x05, 0x68, 0x01, destAddress, 0xD4, 0x00, d8, d9, 0x16] =
      [0x68, 0x05, 0x05, 0x68, 0x01, destAddress, 0xD4, 0x00, d8, d9, 0x16] := by
    simp [collectResp, hdest, h8, h9]
  simp only [iSYS_getOutputDirection, ht, if_false, ite_false, if_neg ht, hcoll]
  simp [List.getD, hdest, h8, h9, hbad]

/-- C10 witness: a well-framed direction response with payload byte 1 and
checksum byte 0 (correct value 86) leaves direction = 1 despite the
checksum error. -/
theorem getOutputDirection_overwrites_witness :
    (iSYS_getOutputDirection 1 0x80 300
        [0x68, 0x05, 0x05, 0x68, 0x01, 0x80, 0xD4, 0x00, 0x01, 0x00, 0x16] 2).2 =
      (.ERR_INVALID_CHECKSUM, 1) :=
  getOutputDirection_overwrites_on_bad_checksum 1 0x80 300 1 0 2
    (by decide) (by decide) (by decide) (by decide) (by decide)

end ISYS4001
